import Mathlib

/-!
Verification development for the rust-binance client library.

This file shallowly embeds the core of the repository: the request signer
(`Client.compute_signature`, `Client.sign_form` from `src/common/client.rs` and the
identical copies in `src/futures/client.rs`), the HTTP response decoder
(`Client.decode_response` from `src/futures/client.rs`), and the streaming event
decoders (`Event::decode_message` / `decode_value` / `decode_data` from
`src/futures/websocket.rs`, `Decoder::decode_event` / `decode_value` from
`src/spot/websocket.rs`) together with the receive loops (`WebSocket::next`).

JSON values and parsing model `serde_json`: numbers are kept as an integer part
plus a flag recording whether the literal was a plain integer (no fraction and no
exponent), which is exactly the distinction `serde_json` uses when deserializing
into `u64`/`i64` versus `f64`.  `f64` struct fields that the source parses from
JSON strings via `parse_f64_string` are kept as their validated source strings,
since floating-point values themselves are outside the embedding; all claims
depend only on deserialization success or failure, never on float arithmetic.
-/

/-- A JSON number as `serde_json` distinguishes them: the integer part, and
whether the literal was a plain integer (no fraction, no exponent).  Only
integer literals deserialize into `u64`/`i64` fields. -/
structure JNum where
  intPart : Int
  isInt : Bool
deriving DecidableEq

/-- A JSON value, the model of `serde_json::Value`. -/
inductive JValue where
  | null
  | bool (b : Bool)
  | num (n : JNum)
  | str (s : String)
  | arr (elems : List JValue)
  | obj (fields : List (String × JValue))

/-- Key lookup among the fields of an object.  The parser already collapses
duplicate keys (last occurrence wins, as `serde_json`'s map insertion does), so
plain first-match lookup is used. -/
def lookupField : List (String × JValue) → String → Option JValue
  | [], _ => none
  | (k', v') :: rest, k => if k' = k then some v' else lookupField rest k

/-- `value[k]` for `serde_json::Value`: field of an object, `Null` when the key
is absent or the value is not an object. -/
def JValue.index (v : JValue) (k : String) : JValue :=
  match v with
  | .obj fields => (lookupField fields k).getD .null
  | _ => .null

/-- Field access that distinguishes absence from `Null`, used by the struct
deserializers (`serde` sees the actual map entries). -/
def JValue.getField (v : JValue) (k : String) : Option JValue :=
  match v with
  | .obj fields => lookupField fields k
  | _ => none

/-- `Value::is_string`. -/
def JValue.isString (v : JValue) : Bool :=
  match v with
  | .str _ => true
  | _ => false

/-- `Value::as_str`. -/
def JValue.asStr (v : JValue) : Option String :=
  match v with
  | .str s => some s
  | _ => none

/-- Insert a field into an object's field list, replacing any previous binding
of the same key (the behaviour of `serde_json`'s map while parsing an object
with duplicate keys: the last occurrence wins). -/
def objInsert (fields : List (String × JValue)) (k : String) (v : JValue) :
    List (String × JValue) :=
  match fields with
  | [] => [(k, v)]
  | (k', v') :: rest => if k' = k then (k, v) :: rest else (k', v') :: objInsert rest k v

/-- Whitespace skipping for the JSON parser. -/
def skipWs : List Char → List Char
  | [] => []
  | c :: rest =>
    if c = ' ' ∨ c = '\t' ∨ c = '\n' ∨ c = '\r' then skipWs rest else c :: rest

/-- One hexadecimal digit. -/
def hexVal (c : Char) : Option Nat :=
  if '0' ≤ c ∧ c ≤ '9' then some (c.toNat - 48)
  else if 'a' ≤ c ∧ c ≤ 'f' then some (c.toNat - 87)
  else if 'A' ≤ c ∧ c ≤ 'F' then some (c.toNat - 55)
  else none

/-- Body of a JSON string literal, after the opening quote.  Returns the decoded
string and the remaining input. -/
def parseStringBody (fuel : Nat) (acc : List Char) (cs : List Char) :
    Except String (String × List Char) :=
  match fuel with
  | 0 => .error "string too long"
  | fuel + 1 =>
    match cs with
    | [] => .error "EOF while parsing a string"
    | '"' :: rest => .ok (String.mk acc.reverse, rest)
    | '\\' :: rest =>
      match rest with
      | [] => .error "EOF while parsing a string"
      | e :: rest2 =>
        if e = '"' then parseStringBody fuel ('"' :: acc) rest2
        else if e = '\\' then parseStringBody fuel ('\\' :: acc) rest2
        else if e = '/' then parseStringBody fuel ('/' :: acc) rest2
        else if e = 'b' then parseStringBody fuel ('\x08' :: acc) rest2
        else if e = 'f' then parseStringBody fuel ('\x0c' :: acc) rest2
        else if e = 'n' then parseStringBody fuel ('\n' :: acc) rest2
        else if e = 'r' then parseStringBody fuel ('\r' :: acc) rest2
        else if e = 't' then parseStringBody fuel ('\t' :: acc) rest2
        else if e = 'u' then
          match rest2 with
          | h1 :: h2 :: h3 :: h4 :: rest3 =>
            match hexVal h1, hexVal h2, hexVal h3, hexVal h4 with
            | some a, some b, some c, some d =>
              parseStringBody fuel (Char.ofNat (((a * 16 + b) * 16 + c) * 16 + d) :: acc) rest3
            | _, _, _, _ => .error "invalid unicode escape"
          | _ => .error "EOF in unicode escape"
        else .error "invalid escape"
    | c :: rest =>
      if c.toNat < 32 then .error "control character in string"
      else parseStringBody fuel (c :: acc) rest

/-- Longest prefix of decimal digits. -/
def spanDigits : List Char → List Char × List Char
  | [] => ([], [])
  | c :: rest =>
    if c.isDigit then
      let p := spanDigits rest
      (c :: p.1, p.2)
    else ([], c :: rest)

/-- Decimal digits to a natural number. -/
def digitsToNat (ds : List Char) : Nat :=
  ds.foldl (fun n c => n * 10 + (c.toNat - 48)) 0

/-- A JSON number literal.  Mirrors `serde_json`: optional minus, an integer
part with no redundant leading zero, an optional fraction, an optional
exponent; a literal with a fraction or exponent is a float (`isInt = false`). -/
def parseNumber (cs : List Char) : Except String (JNum × List Char) :=
  let signed : Bool × List Char :=
    match cs with
    | '-' :: r => (true, r)
    | r => (false, r)
  match spanDigits signed.2 with
  | ([], _) => .error "invalid number"
  | (ds, r1) =>
    if 1 < ds.length ∧ ds.headD '1' = '0' then .error "invalid number: leading zero"
    else
      let intAbs : Int := Int.ofNat (digitsToNat ds)
      let intPart : Int := if signed.1 then -intAbs else intAbs
      let fracStep : Except String (Bool × List Char) :=
        match r1 with
        | '.' :: r2 =>
          match spanDigits r2 with
          | ([], _) => .error "invalid number: missing fraction digits"
          | (_, r3) => .ok (true, r3)
        | _ => .ok (false, r1)
      match fracStep with
      | .error e => .error e
      | .ok (hasFrac, r4) =>
        let expStep : Except String (Bool × List Char) :=
          match r4 with
          | 'e' :: r5 =>
            match spanDigits (match r5 with | '+' :: r6 => r6 | '-' :: r6 => r6 | r6 => r6) with
            | ([], _) => .error "invalid number: missing exponent digits"
            | (_, r7) => .ok (true, r7)
          | 'E' :: r5 =>
            match spanDigits (match r5 with | '+' :: r6 => r6 | '-' :: r6 => r6 | r6 => r6) with
            | ([], _) => .error "invalid number: missing exponent digits"
            | (_, r7) => .ok (true, r7)
          | _ => .ok (false, r4)
        match expStep with
        | .error e => .error e
        | .ok (hasExp, r8) => .ok (⟨intPart, !hasFrac && !hasExp⟩, r8)

/-- Match a literal keyword (`null`, `true`, `false`). -/
def matchLit : List Char → List Char → Option (List Char)
  | [], cs => some cs
  | _ :: _, [] => none
  | l :: ls, c :: cs => if l = c then matchLit ls cs else none

mutual

/-- One JSON value; fuel bounds the recursion depth (the model of
`serde_json`'s recursion limit; the fuel supplied by `parseJson` exceeds the
input length, so it is never exhausted on inputs the grammar accepts). -/
def parseValueFuel : Nat → List Char → Except String (JValue × List Char)
  | 0, _ => .error "recursion limit exceeded"
  | fuel + 1, cs =>
    match skipWs cs with
    | [] => .error "EOF while parsing a value"
    | c :: rest =>
      if c = 'n' then
        match matchLit ['u', 'l', 'l'] rest with
        | some r => .ok (.null, r)
        | none => .error "expected null"
      else if c = 't' then
        match matchLit ['r', 'u', 'e'] rest with
        | some r => .ok (.bool true, r)
        | none => .error "expected true"
      else if c = 'f' then
        match matchLit ['a', 'l', 's', 'e'] rest with
        | some r => .ok (.bool false, r)
        | none => .error "expected false"
      else if c = '"' then
        match parseStringBody (rest.length + 1) [] rest with
        | .error e => .error e
        | .ok (s, r) => .ok (.str s, r)
      else if c = '\x7b' then
        parseObjBody fuel [] rest
      else if c = '[' then
        parseArrBody fuel [] rest
      else if c = '-' ∨ c.isDigit then
        match parseNumber (c :: rest) with
        | .error e => .error e
        | .ok (n, r) => .ok (.num n, r)
      else .error "expected value"

/-- The members of a JSON object, after the opening brace (`acc` holds the
fields parsed so far, duplicates collapsed by `objInsert`). -/
def parseObjBody : Nat → List (String × JValue) → List Char →
    Except String (JValue × List Char)
  | 0, _, _ => .error "recursion limit exceeded"
  | fuel + 1, acc, cs =>
    match skipWs cs with
    | [] => .error "EOF while parsing an object"
    | c :: rest =>
      if c = '\x7d' then
        if acc.isEmpty then .ok (.obj [], rest)
        else .error "trailing comma in object"
      else if c = '"' then
        match parseStringBody (rest.length + 1) [] rest with
        | .error e => .error e
        | .ok (k, r1) =>
          match skipWs r1 with
          | ':' :: r2 =>
            match parseValueFuel fuel r2 with
            | .error e => .error e
            | .ok (v, r3) =>
              match skipWs r3 with
              | ',' :: r4 => parseObjBody fuel (objInsert acc k v) r4
              | '\x7d' :: r4 => .ok (.obj (objInsert acc k v), r4)
              | _ => .error "expected comma or end of object"
          | _ => .error "expected colon"
      else .error "key must be a string"

/-- The elements of a JSON array, after the opening bracket. -/
def parseArrBody : Nat → List JValue → List Char → Except String (JValue × List Char)
  | 0, _, _ => .error "recursion limit exceeded"
  | fuel + 1, acc, cs =>
    match skipWs cs with
    | [] => .error "EOF while parsing an array"
    | c :: rest =>
      if c = ']' then
        if acc.isEmpty then .ok (.arr [], rest)
        else .error "trailing comma in array"
      else
        match parseValueFuel fuel (c :: rest) with
        | .error e => .error e
        | .ok (v, r1) =>
          match skipWs r1 with
          | ',' :: r2 => parseArrBody fuel (acc ++ [v]) r2
          | ']' :: r2 => .ok (.arr (acc ++ [v]), r2)
          | _ => .error "expected comma or end of array"

end

/-- `serde_json::from_str::<Value>`: one JSON value, with only trailing
whitespace allowed after it. -/
def parseJson (s : String) : Except String JValue :=
  match parseValueFuel (s.data.length + 1) s.data with
  | .error e => .error e
  | .ok (v, rest) =>
    match skipWs rest with
    | [] => .ok v
    | _ => .error "trailing characters"

/-!
Field combinators modelling `serde`'s derived deserializers.  A struct field of
type `f64` that the source decodes through `parse_f64_string` must be a JSON
string whose content parses as a Rust `f64` literal; the validated string is
kept.  A `u64`/`i64` field requires an integer JSON number; a plain `f64`
field accepts any JSON number.  An `Option` field without `deserialize_with`
treats a missing key or `null` as `None`; with
`#[serde(default, deserialize_with = "parse_opt_f64_string")]` a missing key is
`None` and a present value must be a float string.
-/

/-- Exponent suffix check for a float literal: `e`/`E`, optional sign, one or
more digits, end of input. -/
def isExpSuffix (cs : List Char) : Bool :=
  match cs with
  | [] => true
  | 'e' :: r =>
    let body := match r with | '+' :: r2 => r2 | '-' :: r2 => r2 | r2 => r2
    let p := spanDigits body
    !p.1.isEmpty && p.2.isEmpty
  | 'E' :: r =>
    let body := match r with | '+' :: r2 => r2 | '-' :: r2 => r2 | r2 => r2
    let p := spanDigits body
    !p.1.isEmpty && p.2.isEmpty
  | _ => false

/-- Rust `f64::from_str` grammar check (used by `parse_f64_string`), after the
optional sign: `inf`/`infinity`/`nan` (any case), or digits with optional
fraction and optional exponent; a bare `.` is rejected, `1.`/`.5` are
accepted. -/
def isF64StringCore (cs : List Char) : Bool :=
  let low := String.mk (cs.map Char.toLower)
  if low = "inf" ∨ low = "infinity" ∨ low = "nan" then true
  else
    let p1 := spanDigits cs
    match p1.2 with
    | '.' :: r =>
      let p2 := spanDigits r
      if p1.1.isEmpty && p2.1.isEmpty then false else isExpSuffix p2.2
    | rest =>
      if p1.1.isEmpty then false else isExpSuffix rest

/-- Whether a Rust `String` parses as `f64` via `str::parse::<f64>()`. -/
def isF64String (s : String) : Bool :=
  match s.data with
  | '+' :: r => isF64StringCore r
  | '-' :: r => isF64StringCore r
  | r => isF64StringCore r

/-- A derived struct deserializer first requires a JSON object (`serde`'s
`invalid type` error otherwise). -/
def ensureObj (v : JValue) : Except String Unit :=
  match v with
  | .obj _ => .ok ()
  | _ => .error "invalid type: not an object"

/-- Required `String` field. -/
def reqStr (v : JValue) (k : String) : Except String String :=
  match v.getField k with
  | some (.str s) => .ok s
  | some _ => .error ("invalid type in field " ++ k)
  | none => .error ("missing field " ++ k)

/-- Required plain `f64` field: any JSON number. -/
def reqF64 (v : JValue) (k : String) : Except String JNum :=
  match v.getField k with
  | some (.num n) => .ok n
  | some _ => .error ("invalid type in field " ++ k)
  | none => .error ("missing field " ++ k)

/-- Required `u64` field: a non-negative integer JSON number. -/
def reqU64 (v : JValue) (k : String) : Except String Nat :=
  match v.getField k with
  | some (.num n) =>
    if n.isInt ∧ 0 ≤ n.intPart then .ok n.intPart.toNat
    else .error ("invalid type in field " ++ k)
  | some _ => .error ("invalid type in field " ++ k)
  | none => .error ("missing field " ++ k)

/-- Required `i64` field: an integer JSON number. -/
def reqI64 (v : JValue) (k : String) : Except String Int :=
  match v.getField k with
  | some (.num n) =>
    if n.isInt then .ok n.intPart else .error ("invalid type in field " ++ k)
  | some _ => .error ("invalid type in field " ++ k)
  | none => .error ("missing field " ++ k)

/-- Required `bool` field. -/
def reqBool (v : JValue) (k : String) : Except String Bool :=
  match v.getField k with
  | some (.bool b) => .ok b
  | some _ => .error ("invalid type in field " ++ k)
  | none => .error ("missing field " ++ k)

/-- Required `f64` field decoded through `parse_f64_string`: a JSON string
whose content parses as a Rust `f64`; the validated string is kept. -/
def reqF64Str (v : JValue) (k : String) : Except String String :=
  match v.getField k with
  | some (.str s) =>
    if isF64String s then .ok s else .error ("invalid float string in field " ++ k)
  | some _ => .error ("invalid type in field " ++ k)
  | none => .error ("missing field " ++ k)

/-- `Option<String>` field: missing or `null` is `None` (serde's `Option`
handling), a string is `Some`, anything else is an error. -/
def optStr (v : JValue) (k : String) : Except String (Option String) :=
  match v.getField k with
  | none => .ok none
  | some .null => .ok none
  | some (.str s) => .ok (some s)
  | some _ => .error ("invalid type in field " ++ k)

/-- `Option<f64>` field with `#[serde(default, deserialize_with =
"parse_opt_f64_string")]`: missing is `None` (the default); a present value
must be a float string (`null` is an error, since `deserialize_with`
overrides serde's `Option` handling). -/
def optF64StrD (v : JValue) (k : String) : Except String (Option String) :=
  match v.getField k with
  | none => .ok none
  | some (.str s) =>
    if isF64String s then .ok (some s) else .error ("invalid float string in field " ++ k)
  | some _ => .error ("invalid type in field " ++ k)

/-- Required `Vec<T>` field: a JSON array, element-wise deserialized. -/
def reqList (v : JValue) (k : String) (p : JValue → Except String α) :
    Except String (List α) :=
  match v.getField k with
  | some (.arr xs) => xs.mapM p
  | some _ => .error ("invalid type in field " ++ k)
  | none => .error ("missing field " ++ k)

/-- Required nested-struct field: the key must be present, the nested
deserializer handles the value. -/
def reqWith (v : JValue) (k : String) (p : JValue → Except String α) :
    Except String α :=
  match v.getField k with
  | some w => p w
  | none => .error ("missing field " ++ k)

/-- The `#[serde(flatten)] other: HashMap<String, Value>` catch-all: every
field not consumed by a named struct field. -/
def flattenOther (v : JValue) (consumed : List String) : List (String × JValue) :=
  match v with
  | .obj fields => fields.filter (fun kv => !(consumed.contains kv.1))
  | _ => []

/-!
Typed event shapes from `src/futures/websocket.rs` and `src/common/stream.rs`,
with their derived deserializers.  Field names are the source's Rust names;
each deserializer reads the serde-renamed JSON keys in declaration order.
`f64` fields carry `JNum`, `parse_f64_string` fields carry the validated
string, `u64` fields carry `Nat`, `i64` fields carry `Int`.
-/

/-- `Kline` (futures websocket). -/
structure Kline where
  open_time : JNum
  close_time : JNum
  symbol : String
  interval : String
  «open» : String
  close : String
  high : String
  low : String
  volume : String
  trade_count : Nat
  quote_volume : String
  taker_base_volume : String
  taker_buy_quote_volume : String
  closed : Bool
deriving DecidableEq

/-- `serde_json::from_value::<Kline>`. -/
def klineFromValue (v : JValue) : Except String Kline := do
  let _ ← ensureObj v
  let open_time ← reqF64 v "t"
  let close_time ← reqF64 v "T"
  let symbol ← reqStr v "s"
  let interval ← reqStr v "i"
  let opn ← reqF64Str v "o"
  let close ← reqF64Str v "c"
  let high ← reqF64Str v "h"
  let low ← reqF64Str v "l"
  let volume ← reqF64Str v "v"
  let trade_count ← reqU64 v "n"
  let quote_volume ← reqF64Str v "q"
  let taker_base_volume ← reqF64Str v "V"
  let taker_buy_quote_volume ← reqF64Str v "Q"
  let closed ← reqBool v "x"
  return ⟨open_time, close_time, symbol, interval, opn, close, high, low, volume,
    trade_count, quote_volume, taker_base_volume, taker_buy_quote_volume, closed⟩

/-- `KlineEvent` (futures websocket). -/
structure KlineEvent where
  event_type : String
  event_time : JNum
  symbol : String
  kline : Kline
deriving DecidableEq

/-- `serde_json::from_value::<KlineEvent>`. -/
def klineEventFromValue (v : JValue) : Except String KlineEvent := do
  let _ ← ensureObj v
  let event_type ← reqStr v "e"
  let event_time ← reqF64 v "E"
  let symbol ← reqStr v "s"
  let kline ← reqWith v "k" klineFromValue
  return ⟨event_type, event_time, symbol, kline⟩

/-- `AggTrade` (`src/common/stream.rs`). -/
structure AggTrade where
  event_type : String
  event_time : JNum
  symbol : String
  agg_trade_id : Nat
  price : String
  quantity : String
  first_trade_id : Nat
  last_trade_id : Nat
  trade_time : Nat
  buyer_maker : Bool
deriving DecidableEq

/-- `serde_json::from_value::<AggTrade>`. -/
def aggTradeFromValue (v : JValue) : Except String AggTrade := do
  let _ ← ensureObj v
  let event_type ← reqStr v "e"
  let event_time ← reqF64 v "E"
  let symbol ← reqStr v "s"
  let agg_trade_id ← reqU64 v "a"
  let price ← reqF64Str v "p"
  let quantity ← reqF64Str v "q"
  let first_trade_id ← reqU64 v "f"
  let last_trade_id ← reqU64 v "l"
  let trade_time ← reqU64 v "T"
  let buyer_maker ← reqBool v "m"
  return ⟨event_type, event_time, symbol, agg_trade_id, price, quantity,
    first_trade_id, last_trade_id, trade_time, buyer_maker⟩

/-- `OrderTradeUpdate` (futures websocket). -/
structure OrderTradeUpdate where
  symbol : String
  client_order_id : String
  order_side : String
  order_type : String
  time_in_force : String
  orig_qty : String
  orig_price : String
  avg_price : String
  stop_price : String
  execution_type : String
  order_status : String
  order_id : Nat
  last_fill_amount : String
  cum_fill_amount : String
  last_fill_price : String
  commission_asset : Option String
  commission : Option String
  order_trade_time : Nat
  trade_id : Nat
  bids_notional : String
  asks_notional : String
  is_maker : Bool
  is_reduce_only : Bool
  stop_price_working_type : String
  orig_order_type : String
  position_side : String
  is_close_all : Bool
  activation_price : Option String
  callback_rate : Option String
  realized_profit : String
deriving DecidableEq

/-- `serde_json::from_value::<OrderTradeUpdate>`. -/
def orderTradeUpdateFromValue (v : JValue) : Except String OrderTradeUpdate := do
  let _ ← ensureObj v
  let symbol ← reqStr v "s"
  let client_order_id ← reqStr v "c"
  let order_side ← reqStr v "S"
  let order_type ← reqStr v "o"
  let time_in_force ← reqStr v "f"
  let orig_qty ← reqF64Str v "q"
  let orig_price ← reqF64Str v "p"
  let avg_price ← reqF64Str v "ap"
  let stop_price ← reqF64Str v "sp"
  let execution_type ← reqStr v "x"
  let order_status ← reqStr v "X"
  let order_id ← reqU64 v "i"
  let last_fill_amount ← reqF64Str v "l"
  let cum_fill_amount ← reqF64Str v "z"
  let last_fill_price ← reqF64Str v "L"
  let commission_asset ← optStr v "N"
  let commission ← optF64StrD v "n"
  let order_trade_time ← reqU64 v "T"
  let trade_id ← reqU64 v "t"
  let bids_notional ← reqF64Str v "b"
  let asks_notional ← reqF64Str v "a"
  let is_maker ← reqBool v "m"
  let is_reduce_only ← reqBool v "R"
  let stop_price_working_type ← reqStr v "wt"
  let orig_order_type ← reqStr v "ot"
  let position_side ← reqStr v "ps"
  let is_close_all ← reqBool v "cp"
  let activation_price ← optF64StrD v "AP"
  let callback_rate ← optF64StrD v "cr"
  let realized_profit ← reqF64Str v "rp"
  return ⟨symbol, client_order_id, order_side, order_type, time_in_force, orig_qty,
    orig_price, avg_price, stop_price, execution_type, order_status, order_id,
    last_fill_amount, cum_fill_amount, last_fill_price, commission_asset, commission,
    order_trade_time, trade_id, bids_notional, asks_notional, is_maker,
    is_reduce_only, stop_price_working_type, orig_order_type, position_side,
    is_close_all, activation_price, callback_rate, realized_profit⟩

/-- `OrderTradeUpdateEvent` (futures websocket). -/
structure OrderTradeUpdateEvent where
  event_type : String
  event_time : JNum
  transaction_time : JNum
  update : OrderTradeUpdate
deriving DecidableEq

/-- `serde_json::from_value::<OrderTradeUpdateEvent>`. -/
def orderTradeUpdateEventFromValue (v : JValue) : Except String OrderTradeUpdateEvent := do
  let _ ← ensureObj v
  let event_type ← reqStr v "e"
  let event_time ← reqF64 v "E"
  let transaction_time ← reqF64 v "T"
  let update ← reqWith v "o" orderTradeUpdateFromValue
  return ⟨event_type, event_time, transaction_time, update⟩

/-- `AccountUpdateBalances` (futures websocket). -/
structure AccountUpdateBalances where
  asset : String
  wallet_balance : String
  cross_wallet_balance : String
deriving DecidableEq

/-- `serde_json::from_value::<AccountUpdateBalances>`. -/
def accountUpdateBalancesFromValue (v : JValue) : Except String AccountUpdateBalances := do
  let _ ← ensureObj v
  let asset ← reqStr v "a"
  let wallet_balance ← reqF64Str v "wb"
  let cross_wallet_balance ← reqF64Str v "cw"
  return ⟨asset, wallet_balance, cross_wallet_balance⟩

/-- `AccountUpdatePosition` (futures websocket). -/
structure AccountUpdatePosition where
  symbol : String
  position_amount : String
  entry_price : String
  accumulated_realized : String
  unrealized_profit : String
  margin_type : String
  isolated_wallet : String
  position_side : String
deriving DecidableEq

/-- `serde_json::from_value::<AccountUpdatePosition>`. -/
def accountUpdatePositionFromValue (v : JValue) : Except String AccountUpdatePosition := do
  let _ ← ensureObj v
  let symbol ← reqStr v "s"
  let position_amount ← reqF64Str v "pa"
  let entry_price ← reqF64Str v "ep"
  let accumulated_realized ← reqF64Str v "cr"
  let unrealized_profit ← reqF64Str v "up"
  let margin_type ← reqStr v "mt"
  let isolated_wallet ← reqF64Str v "iw"
  let position_side ← reqStr v "ps"
  return ⟨symbol, position_amount, entry_price, accumulated_realized,
    unrealized_profit, margin_type, isolated_wallet, position_side⟩

/-- `AccountUpdateData` (futures websocket). -/
structure AccountUpdateData where
  reason : String
  balances : List AccountUpdateBalances
  positions : List AccountUpdatePosition
deriving DecidableEq

/-- `serde_json::from_value::<AccountUpdateData>`. -/
def accountUpdateDataFromValue (v : JValue) : Except String AccountUpdateData := do
  let _ ← ensureObj v
  let reason ← reqStr v "m"
  let balances ← reqList v "B" accountUpdateBalancesFromValue
  let positions ← reqList v "P" accountUpdatePositionFromValue
  return ⟨reason, balances, positions⟩

/-- `AccountUpdate` (futures websocket). -/
structure AccountUpdate where
  event_type : String
  event_time : Nat
  tx_time : Nat
  data : AccountUpdateData
deriving DecidableEq

/-- `serde_json::from_value::<AccountUpdate>`. -/
def accountUpdateFromValue (v : JValue) : Except String AccountUpdate := do
  let _ ← ensureObj v
  let event_type ← reqStr v "e"
  let event_time ← reqU64 v "E"
  let tx_time ← reqU64 v "T"
  let data ← reqWith v "a" accountUpdateDataFromValue
  return ⟨event_type, event_time, tx_time, data⟩

/-- `LiquidationEvent` (futures websocket). -/
structure LiquidationEvent where
  symbol : String
  side : String
  order_type : String
  time_in_force : String
  original_quantity : String
  price : String
  average_price : String
  order_status : String
  last_fill_quantity : String
  accumulated_quantity : String
  trade_time : Nat
deriving DecidableEq

/-- `serde_json::from_value::<LiquidationEvent>`. -/
def liquidationEventFromValue (v : JValue) : Except String LiquidationEvent := do
  let _ ← ensureObj v
  let symbol ← reqStr v "s"
  let side ← reqStr v "S"
  let order_type ← reqStr v "o"
  let time_in_force ← reqStr v "f"
  let original_quantity ← reqF64Str v "q"
  let price ← reqF64Str v "p"
  let average_price ← reqF64Str v "ap"
  let order_status ← reqStr v "X"
  let last_fill_quantity ← reqF64Str v "l"
  let accumulated_quantity ← reqF64Str v "z"
  let trade_time ← reqU64 v "T"
  return ⟨symbol, side, order_type, time_in_force, original_quantity, price,
    average_price, order_status, last_fill_quantity, accumulated_quantity, trade_time⟩

/-- `Ticker` (futures websocket). -/
structure Ticker where
  event_type : String
  event_time : Nat
  symbol : String
  price_change : String
  price_change_percent : String
  weight_avg_price : String
  last_price : String
  last_quantity : String
  open_price : String
  high_price : String
  low_price : String
  base_asset_volume : String
  quote_asset_volume : String
  stats_open_time : Nat
  stats_close_time : Nat
  first_trade_id : Nat
  last_trade_id : Nat
  trade_count : Nat
deriving DecidableEq

/-- `serde_json::from_value::<Ticker>`. -/
def tickerFromValue (v : JValue) : Except String Ticker := do
  let _ ← ensureObj v
  let event_type ← reqStr v "e"
  let event_time ← reqU64 v "E"
  let symbol ← reqStr v "s"
  let price_change ← reqF64Str v "p"
  let price_change_percent ← reqF64Str v "P"
  let weight_avg_price ← reqF64Str v "w"
  let last_price ← reqF64Str v "c"
  let last_quantity ← reqF64Str v "Q"
  let open_price ← reqF64Str v "o"
  let high_price ← reqF64Str v "h"
  let low_price ← reqF64Str v "l"
  let base_asset_volume ← reqF64Str v "v"
  let quote_asset_volume ← reqF64Str v "q"
  let stats_open_time ← reqU64 v "O"
  let stats_close_time ← reqU64 v "C"
  let first_trade_id ← reqU64 v "F"
  let last_trade_id ← reqU64 v "L"
  let trade_count ← reqU64 v "n"
  return ⟨event_type, event_time, symbol, price_change, price_change_percent,
    weight_avg_price, last_price, last_quantity, open_price, high_price, low_price,
    base_asset_volume, quote_asset_volume, stats_open_time, stats_close_time,
    first_trade_id, last_trade_id, trade_count⟩

/-- A websocket frame (`tungstenite::Message`): text, binary, ping, pong,
close. -/
inductive Frame where
  | text (s : String)
  | binary (data : List Nat)
  | ping (data : List Nat)
  | pong (data : List Nat)
  | close
deriving DecidableEq

/-- The frames `WebSocket::next` forwards to the event decoder
(`Message::Ping(_) | Message::Text(_)` in both receive loops). -/
def Frame.isTextOrPing : Frame → Bool
  | .text _ => true
  | .ping _ => true
  | _ => false

/-- `Event` (futures websocket): the classified business variants, the
escape hatches (`ParseError` with the serde error text and the offending
input, `Unknown` with the raw text), the informational `Ping`, and the
never-produced raw `Message`. -/
inductive Event where
  | message (m : Frame)
  | kline (e : KlineEvent)
  | aggTrade (e : AggTrade)
  | orderTradeUpdate (e : OrderTradeUpdateEvent)
  | accountUpdate (e : AccountUpdate)
  | liquidationEvent (e : LiquidationEvent)
  | ticker (e : Ticker)
  | parseError (error : String) (input : String)
  | unknown (s : String)
  | ping (data : List Nat)
deriving DecidableEq

/-- The discriminator values `Event::decode_data` classifies. -/
def knownFuturesDiscriminators : List String :=
  ["kline", "aggTrade", "ORDER_TRADE_UPDATE", "ACCOUNT_UPDATE", "forceOrder", "24hrTicker"]

/-- `Event::decode_data` (futures websocket): dispatch on the string value of
the `e` field; for `forceOrder` the nested `o` object is deserialized; any
other (or non-string) discriminator falls through to `Ok(None)`. -/
def Event.decode_data (v : JValue) : Except String (Option Event) :=
  match (v.index "e").asStr with
  | some e =>
    if e = "kline" then (klineEventFromValue v).map fun x => some (.kline x)
    else if e = "aggTrade" then (aggTradeFromValue v).map fun x => some (.aggTrade x)
    else if e = "ORDER_TRADE_UPDATE" then
      (orderTradeUpdateEventFromValue v).map fun x => some (.orderTradeUpdate x)
    else if e = "ACCOUNT_UPDATE" then
      (accountUpdateFromValue v).map fun x => some (.accountUpdate x)
    else if e = "forceOrder" then
      (liquidationEventFromValue (v.index "o")).map fun x => some (.liquidationEvent x)
    else if e = "24hrTicker" then (tickerFromValue v).map fun x => some (.ticker x)
    else .ok none
  | none => .ok none

/-- `Event::decode_value` (futures websocket): a combined-stream envelope
(string `stream` field and a `data` object with a string `e`) is unwrapped to
its `data` before classification; otherwise an object with a string `e` is
classified directly; anything else is `Ok(None)`. -/
def Event.decode_value (v : JValue) : Except String (Option Event) :=
  if (v.index "stream").isString && ((v.index "data").index "e").isString then
    Event.decode_data (v.index "data")
  else if (v.index "e").isString then
    Event.decode_data v
  else
    .ok none

/-- `Event::decode_message` (futures websocket): a text frame is parsed as
JSON and classified; a deserialization failure at any stage becomes
`ParseError` with the error text and the original message; an unclassified
value becomes `Unknown` with the original message; a ping frame becomes
`Ping`.  The source's `unreachable!()` catch-all for other frame kinds is
modelled as `none`. -/
def Event.decode_message : Frame → Option Event
  | .text s =>
    some
      (match (parseJson s).bind Event.decode_value with
      | .error err => .parseError err s
      | .ok (some e) => e
      | .ok none => .unknown s)
  | .ping data => some (.ping data)
  | .binary _ => none
  | .pong _ => none
  | .close => none

/-!
Spot user-stream event shapes from `src/spot/websocket.rs`.  The spot
`AccountUpdate` is a distinct type from the futures one; it is named
`SpotAccountUpdate` here to avoid the clash (the source disambiguates by
module path).
-/

/-- `ExecutionReport` (spot websocket).  The `other` field is the
`#[serde(flatten)]` catch-all map. -/
structure ExecutionReport where
  event_type : String
  event_time : Nat
  symbol : String
  client_order_id : String
  side : String
  order_type : String
  time_in_force : String
  quantity : String
  price : String
  stop_price : String
  iceberg_quantity : String
  orig_client_order_id : String
  current_execution_type : String
  current_order_status : String
  reject_reason : String
  order_id : Nat
  last_executed_quantity : String
  cumulative_filled_quantity : String
  last_executed_price : String
  commission_amount : String
  commission_asset : Option String
  transaction_time : Nat
  trade_id : Int
  ignore0 : Int
  on_book : Bool
  is_maker : Bool
  ignore1 : Bool
  order_creation_time : Nat
  cumulative_quote_quantity : String
  last_quote_quantity : String
  quote_order_quantity : String
  other : List (String × JValue)

/-- The JSON keys consumed by `ExecutionReport`'s named fields; everything
else goes to the flattened `other` map. -/
def executionReportKeys : List String :=
  ["e", "E", "s", "c", "S", "o", "f", "q", "p", "P", "F", "C", "x", "X", "r",
   "i", "l", "z", "L", "n", "N", "T", "t", "I", "w", "m", "M", "O", "Z", "Y", "Q"]

/-- `serde_json::from_value::<ExecutionReport>`. -/
def executionReportFromValue (v : JValue) : Except String ExecutionReport := do
  let _ ← ensureObj v
  let event_type ← reqStr v "e"
  let event_time ← reqU64 v "E"
  let symbol ← reqStr v "s"
  let client_order_id ← reqStr v "c"
  let side ← reqStr v "S"
  let order_type ← reqStr v "o"
  let time_in_force ← reqStr v "f"
  let quantity ← reqF64Str v "q"
  let price ← reqF64Str v "p"
  let stop_price ← reqF64Str v "P"
  let iceberg_quantity ← reqF64Str v "F"
  let orig_client_order_id ← reqStr v "C"
  let current_execution_type ← reqStr v "x"
  let current_order_status ← reqStr v "X"
  let reject_reason ← reqStr v "r"
  let order_id ← reqU64 v "i"
  let last_executed_quantity ← reqF64Str v "l"
  let cumulative_filled_quantity ← reqF64Str v "z"
  let last_executed_price ← reqF64Str v "L"
  let commission_amount ← reqF64Str v "n"
  let commission_asset ← optStr v "N"
  let transaction_time ← reqU64 v "T"
  let trade_id ← reqI64 v "t"
  let ignore0 ← reqI64 v "I"
  let on_book ← reqBool v "w"
  let is_maker ← reqBool v "m"
  let ignore1 ← reqBool v "M"
  let order_creation_time ← reqU64 v "O"
  let cumulative_quote_quantity ← reqF64Str v "Z"
  let last_quote_quantity ← reqF64Str v "Y"
  let quote_order_quantity ← reqF64Str v "Q"
  return ⟨event_type, event_time, symbol, client_order_id, side, order_type,
    time_in_force, quantity, price, stop_price, iceberg_quantity,
    orig_client_order_id, current_execution_type, current_order_status,
    reject_reason, order_id, last_executed_quantity, cumulative_filled_quantity,
    last_executed_price, commission_amount, commission_asset, transaction_time,
    trade_id, ignore0, on_book, is_maker, ignore1, order_creation_time,
    cumulative_quote_quantity, last_quote_quantity, quote_order_quantity,
    flattenOther v executionReportKeys⟩

/-- `AccountUpdateBalance` (spot websocket). -/
structure AccountUpdateBalance where
  asset : String
  free : String
  locked : String
deriving DecidableEq

/-- `serde_json::from_value::<AccountUpdateBalance>` (spot). -/
def accountUpdateBalanceFromValue (v : JValue) : Except String AccountUpdateBalance := do
  let _ ← ensureObj v
  let asset ← reqStr v "a"
  let free ← reqF64Str v "f"
  let locked ← reqF64Str v "l"
  return ⟨asset, free, locked⟩

/-- `AccountUpdate` (spot websocket; named `SpotAccountUpdate` here). -/
structure SpotAccountUpdate where
  event_type : String
  event_time : Nat
  last_update_time : Nat
  balances : List AccountUpdateBalance
deriving DecidableEq

/-- `serde_json::from_value::<AccountUpdate>` (spot). -/
def spotAccountUpdateFromValue (v : JValue) : Except String SpotAccountUpdate := do
  let _ ← ensureObj v
  let event_type ← reqStr v "e"
  let event_time ← reqU64 v "E"
  let last_update_time ← reqU64 v "u"
  let balances ← reqList v "B" accountUpdateBalanceFromValue
  return ⟨event_type, event_time, last_update_time, balances⟩

/-- `Event` (spot websocket; named `SpotEvent` here): exactly two classified
variants plus the single raw `Message` escape hatch — there are no distinct
parse-error, unknown or ping variants on the spot stream. -/
inductive SpotEvent where
  | executionReport (r : ExecutionReport)
  | accountUpdate (u : SpotAccountUpdate)
  | message (m : Frame)

/-- `Decoder::decode_value` (spot websocket): only the two discriminators
`executionReport` and `outboundAccountPosition` are classified; everything
else is `Ok(None)`. -/
def Decoder.decode_value (v : JValue) : Except String (Option SpotEvent) :=
  match (v.index "e").asStr with
  | some e =>
    if e = "executionReport" then
      (executionReportFromValue v).map fun r => some (.executionReport r)
    else if e = "outboundAccountPosition" then
      (spotAccountUpdateFromValue v).map fun u => some (.accountUpdate u)
    else .ok none
  | none => .ok none

/-- `Decoder::decode_event` (spot websocket): a text frame that parses as JSON
with a string `e` field is classified by `decode_value`; a decode error (which
the source logs) and every other case fall through to `Event::Message` with
the original frame. -/
def Decoder.decode_event (m : Frame) : SpotEvent :=
  match m with
  | .text s =>
    match parseJson s with
    | .ok v =>
      if (v.index "e").isString then
        match Decoder.decode_value v with
        | .ok (some e) => e
        | .ok none => .message (.text s)
        | .error _ => .message (.text s)
      else .message (.text s)
    | .error _ => .message (.text s)
  | m => .message m

/-!
The receive loop (`WebSocket::next` in `src/futures/websocket.rs` and
`src/spot/websocket.rs`): frames are pulled sequentially; text and ping
frames are handed to the event decoder and returned; binary, pong and close
frames are skipped and the loop reads the next frame.

Modelled from the spec: the automatic pong reply — the keepalive behaviour the
spec attributes to the receive loop — lives in the `tokio-tungstenite` /
`tungstenite` connector, not under `src/`; this repository's loop never writes
a frame.  Following the spec's words ("on receiving a ping frame, immediately
writes a pong frame with the identical payload before continuing to read the
next frame", "a failure to send the pong is non-fatal"), reading a ping frame
enqueues a pong carrying the identical payload before the frame is handed to
the application, recorded here as a `sendPong` action whose success flag
(`sendOk`) never influences the rest of the run.
-/

/-- One observable step of the receive loop: a frame read off the wire, a
pong write (with its success flag), or an event delivered to the consumer. -/
inductive WsAction (ε : Type) where
  | readFrame (f : Frame)
  | sendPong (data : List Nat) (ok : Bool)
  | deliver (e : ε)
deriving DecidableEq

/-- The trace of the receive loop consuming a list of inbound frames, for an
event decoder `decode` (futures: `Event::decode_message`; spot:
`Decoder::decode_event`).  `sendOk` tells whether each pong write succeeds. -/
def wsRun (decode : Frame → ε) (sendOk : List Nat → Bool) : List Frame → List (WsAction ε)
  | [] => []
  | .ping p :: rest =>
    .readFrame (.ping p) :: .sendPong p (sendOk p) :: .deliver (decode (.ping p)) ::
      wsRun decode sendOk rest
  | .text s :: rest =>
    .readFrame (.text s) :: .deliver (decode (.text s)) :: wsRun decode sendOk rest
  | .binary b :: rest => .readFrame (.binary b) :: wsRun decode sendOk rest
  | .pong p :: rest => .readFrame (.pong p) :: wsRun decode sendOk rest
  | .close :: rest => .readFrame .close :: wsRun decode sendOk rest

/-- Erase pong-send outcomes from a trace (normalizing the success flag), to
state that delivery and reading are independent of whether pong writes
succeed. -/
def stripSendResult : WsAction ε → WsAction ε
  | .sendPong p _ => .sendPong p true
  | a => a

/-!
The signer (`Client::compute_signature` / `Client::sign_form` in
`src/common/client.rs`, duplicated verbatim in `src/futures/client.rs`).
HMAC-SHA256 is implemented concretely below (the `hmac`/`sha2` crates);
`{:x}` on the MAC output is lowercase hexadecimal.  The wall-clock timestamp
(`get_timestamp`, milliseconds since epoch) is passed as an explicit argument,
since the embedding is pure.
-/

/-- UTF-8 encoding of one scalar value (`str::as_bytes`). -/
def utf8Encode (c : Char) : List Nat :=
  let n := c.toNat
  if n < 128 then [n]
  else if n < 2048 then [192 + n / 64, 128 + n % 64]
  else if n < 65536 then [224 + n / 4096, 128 + n / 64 % 64, 128 + n % 64]
  else [240 + n / 262144, 128 + n / 4096 % 64, 128 + n / 64 % 64, 128 + n % 64]

/-- The bytes of a string (`str::as_bytes`). -/
def strBytes (s : String) : List Nat :=
  s.data.flatMap utf8Encode

/-- Truncation to 32 bits. -/
def w32 (x : Nat) : Nat := x % 4294967296

/-- 32-bit right rotation. -/
def rotr32 (n x : Nat) : Nat := w32 (x / 2 ^ n + x % 2 ^ n * 2 ^ (32 - n))

/-- 32-bit bitwise complement. -/
def not32 (x : Nat) : Nat := Nat.xor x 4294967295

/-- SHA-256 `Ch`. -/
def shaCh (e f g : Nat) : Nat := Nat.xor (Nat.land e f) (Nat.land (not32 e) g)

/-- SHA-256 `Maj`. -/
def shaMaj (a b c : Nat) : Nat :=
  Nat.xor (Nat.land a b) (Nat.xor (Nat.land a c) (Nat.land b c))

/-- SHA-256 `Σ0`. -/
def bsig0 (x : Nat) : Nat := Nat.xor (rotr32 2 x) (Nat.xor (rotr32 13 x) (rotr32 22 x))

/-- SHA-256 `Σ1`. -/
def bsig1 (x : Nat) : Nat := Nat.xor (rotr32 6 x) (Nat.xor (rotr32 11 x) (rotr32 25 x))

/-- SHA-256 `σ0`. -/
def ssig0 (x : Nat) : Nat := Nat.xor (rotr32 7 x) (Nat.xor (rotr32 18 x) (x / 2 ^ 3))

/-- SHA-256 `σ1`. -/
def ssig1 (x : Nat) : Nat := Nat.xor (rotr32 17 x) (Nat.xor (rotr32 19 x) (x / 2 ^ 10))

/-- The SHA-256 round constants (the fractional parts of the cube roots of
the first 64 primes, as 32-bit words; written in decimal). -/
def sha256K : List Nat :=
  [1116352408, 1899447441, 3049323471, 3921009573, 961987163,
   1508970993, 2453635748, 2870763221, 3624381080, 310598401,
   607225278, 1426881987, 1925078388, 2162078206, 2614888103,
   3248222580, 3835390401, 4022224774, 264347078, 604807628,
   770255983, 1249150122, 1555081692, 1996064986, 2554220882,
   2821834349, 2952996808, 3210313671, 3336571891, 3584528711,
   113926993, 338241895, 666307205, 773529912, 1294757372,
   1396182291, 1695183700, 1986661051, 2177026350, 2456956037,
   2730485921, 2820302411, 3259730800, 3345764771, 3516065817,
   3600352804, 4094571909, 275423344, 430227734, 506948616,
   659060556, 883997877, 958139571, 1322822218, 1537002063,
   1747873779, 1955562222, 2024104815, 2227730452, 2361852424,
   2428436474, 2756734187, 3204031479, 3329325298]

/-- The SHA-256 initial hash value (the fractional parts of the square roots
of the first 8 primes, as 32-bit words; written in decimal). -/
def sha256H0 : List Nat :=
  [1779033703, 3144134277, 1013904242, 2773480762, 1359893119,
   2600822924, 528734635, 1541459225]

/-- Big-endian 64-bit byte encoding. -/
def be64 (n : Nat) : List Nat :=
  (List.range 8).map fun i => n / 2 ^ (8 * (7 - i)) % 256

/-- SHA-256 message padding: `0x80`, zeros to 56 mod 64, the bit length. -/
def sha256Pad (msg : List Nat) : List Nat :=
  msg ++ 128 :: List.replicate ((119 - msg.length % 64) % 64) 0 ++ be64 (8 * msg.length)

/-- Split into 64-byte blocks (`fuel` bounds the recursion; callers pass the
list length, which suffices). -/
def chunks64 (fuel : Nat) (l : List Nat) : List (List Nat) :=
  match fuel with
  | 0 => []
  | fuel + 1 =>
    match l with
    | [] => []
    | l => l.take 64 :: chunks64 fuel (l.drop 64)

/-- Four big-endian bytes per 32-bit word. -/
def bytesToWords : List Nat → List Nat
  | b0 :: b1 :: b2 :: b3 :: rest => (((b0 * 256 + b1) * 256 + b2) * 256 + b3) :: bytesToWords rest
  | _ => []

/-- The SHA-256 message schedule: extend 16 words to 64. -/
def sha256Schedule (ws : Array Nat) : Array Nat :=
  (List.range 48).foldl
    (fun a i =>
      let j := i + 16
      a.push (w32 (a.getD (j - 16) 0 + ssig0 (a.getD (j - 15) 0) +
        a.getD (j - 7) 0 + ssig1 (a.getD (j - 2) 0))))
    ws

/-- The SHA-256 compression function on one scheduled block. -/
def sha256Compress (h : List Nat) (w : Array Nat) : List Nat :=
  let final := (List.range 64).foldl
    (fun (st : List Nat) i =>
      match st with
      | [a, b, c, d, e, f, g, hh] =>
        let t1 := w32 (hh + bsig1 e + shaCh e f g + sha256K.getD i 0 + w.getD i 0)
        let t2 := w32 (bsig0 a + shaMaj a b c)
        [w32 (t1 + t2), a, b, c, w32 (d + t1), e, f, g]
      | st => st)
    h
  List.zipWith (fun x y => w32 (x + y)) h final

/-- SHA-256 of a byte string, as 32 bytes. -/
def sha256 (msg : List Nat) : List Nat :=
  let padded := sha256Pad msg
  let H := (chunks64 padded.length padded).foldl
    (fun h chunk => sha256Compress h ((bytesToWords chunk).toArray |> sha256Schedule))
    sha256H0
  H.flatMap fun wd => [wd / 2 ^ 24 % 256, wd / 2 ^ 16 % 256, wd / 2 ^ 8 % 256, wd % 256]

/-- Lowercase hexadecimal digit. -/
def hexDigitChar (n : Nat) : Char :=
  if n < 10 then Char.ofNat (48 + n) else Char.ofNat (87 + n)

/-- Lowercase hexadecimal rendering of bytes (Rust's `{:x}` on the MAC
output). -/
def bytesToHex (bs : List Nat) : String :=
  String.mk (bs.flatMap fun b => [hexDigitChar (b / 16), hexDigitChar (b % 16)])

/-- HMAC-SHA256 of `msg` under `secret`, rendered as lowercase hex
(`hmac::Hmac::<sha2::Sha256>` followed by `format!("{:x}", ...)`). -/
def hmacSha256Hex (secret msg : String) : String :=
  let key := strBytes secret
  let key := if 64 < key.length then sha256 key else key
  let key := key ++ List.replicate (64 - key.length) 0
  let ipadKey := key.map fun b => Nat.xor b 54
  let opadKey := key.map fun b => Nat.xor b 92
  bytesToHex (sha256 (opadKey ++ sha256 (ipadKey ++ strBytes msg)))

/-- `Authentication` (`src/common/client.rs`). -/
structure Authentication where
  api_secret : String
  api_key : String
deriving DecidableEq

/-- The outcome of a call that can panic: Rust's `unwrap()` on `None`
aborts instead of returning, which is distinct from every `Result` value. -/
inductive PanicOr (α : Type) where
  | panic
  | value (a : α)
deriving DecidableEq

/-- `Client` (`src/common/client.rs`): the optional credentials.  (The
`reqwest` handle and base URL play no part in signing.) -/
structure Client where
  auth : Option Authentication

/-- `Client::compute_signature`: `self.auth.as_ref().unwrap()` panics when the
client was built without credentials; otherwise the body is MACed under the
secret.  The `map_err` on `new_varkey` is dead code — HMAC accepts keys of any
length — so the inner `Result` is always `Ok`. -/
def Client.compute_signature (c : Client) (request_body : String) :
    PanicOr (Except String String) :=
  match c.auth with
  | none => .panic
  | some auth => .value (.ok (hmacSha256Hex auth.api_secret request_body))

/-- `Client::sign_form`: appends `&recvWindow=1000&timestamp={t}` to the
(possibly absent) form, signs the resulting exact string, and appends the
signature as the trailing field. -/
def Client.sign_form (c : Client) (form : Option String) (timestamp : Nat) :
    PanicOr (Except String String) :=
  let form := form.getD ""
  let form2 := form ++ "&recvWindow=1000&timestamp=" ++ toString timestamp
  match c.compute_signature form2 with
  | .panic => .panic
  | .value (.error e) => .value (.error e)
  | .value (.ok signature) => .value (.ok (form2 ++ "&signature=" ++ signature))

/-!
The HTTP response decoder (`Client::decode_response` in
`src/futures/client.rs`).  The generic `T: DeserializeOwned` is a
deserializer parameter `parseT`; the HTTP status is its numeric code
(`StatusCode::OK` is exactly 200).
-/

/-- `ApiError` (`src/futures/client.rs`): numeric code, message, and the
flattened bag of any other fields. -/
structure ApiError where
  code : Int
  msg : String
  other : List (String × JValue)

/-- `serde_json::from_value::<ApiError>`. -/
def apiErrorFromValue (v : JValue) : Except String ApiError := do
  let _ ← ensureObj v
  let code ← reqI64 v "code"
  let msg ← reqStr v "msg"
  return ⟨code, msg, flattenOther v ["code", "msg"]⟩

/-- `serde_json::from_str::<ApiError>`. -/
def apiErrorFromStr (body : String) : Except String ApiError :=
  (parseJson body).bind apiErrorFromValue

/-- The error cases of `decode_response` (from the `Error` enum in
`src/error.rs` / `src/common/client.rs`): `Error::Decode` keeps the serde
error and the original body text; `Error::ApiError` wraps the typed API
error. -/
inductive ClientError where
  | decode (error : String) (text : String)
  | apiError (e : ApiError)

/-- `Client::decode_response`: on status `OK` (exactly 200) deserialize the
body as `T`, wrapping a failure as `Error::Decode` with the original text; on
any other status try the body as an `ApiError`, and if that fails synthesize
one from the numeric status code and the raw body. -/
def decode_response (parseT : String → Except String τ) (status : Nat) (body : String) :
    Except ClientError τ :=
  if status = 200 then
    match parseT body with
    | .ok t => .ok t
    | .error error => .error (.decode error body)
  else
    match apiErrorFromStr body with
    | .ok e => .error (.apiError e)
    | .error _ => .error (.apiError ⟨Int.ofNat status, body, []⟩)

/-- Whether a `decode_response` outcome is a classified API error. -/
def isApiError : Except ClientError τ → Bool
  | .error (.apiError _) => true
  | _ => false

/-- The object `Event::decode_value` actually hands to `Event::decode_data`: a
combined-stream envelope is unwrapped to its `data`, a bare object with a
string `e` is classified directly, anything else is not classified. -/
def classificationTarget (v : JValue) : Option JValue :=
  if (v.index "stream").isString && ((v.index "data").index "e").isString then
    some (v.index "data")
  else if (v.index "e").isString then some v
  else none

/-!  Theorems.  -/

/-- A classified-variant mapping never produces the raw `Message` variant. -/
theorem except_map_classified_ne_message {α : Type} (x : Except String α)
    (g : α → Event) (m : Frame) (hg : ∀ a, g a ≠ Event.message m) :
    x.map (fun a => some (g a)) ≠ .ok (some (.message m)) := by
  intro h
  cases x with
  | error e => simp [Except.map] at h
  | ok a =>
    simp [Except.map] at h
    exact hg a h

/-- `Event::decode_data` never yields the raw `Message` variant. -/
theorem decode_data_ne_message (v : JValue) (m : Frame) :
    Event.decode_data v ≠ .ok (some (.message m)) := by
  unfold Event.decode_data
  repeat' split
  all_goals
    first
      | exact except_map_classified_ne_message _ _ _ (fun a => by simp)
      | simp

/-- `Event::decode_value` never yields the raw `Message` variant. -/
theorem decode_value_ne_message (v : JValue) (m : Frame) :
    Event.decode_value v ≠ .ok (some (.message m)) := by
  unfold Event.decode_value
  split
  · exact decode_data_ne_message _ _
  split
  · exact decode_data_ne_message _ _
  · simp

/-- On the frames the receive loop forwards, `Event::decode_message` never
returns the raw `Message` variant. -/
theorem decode_message_ne_message (f : Frame) (m : Frame) (hf : f.isTextOrPing = true) :
    Event.decode_message f ≠ some (.message m) := by
  cases f with
  | text s =>
    intro h
    simp only [Event.decode_message, Option.some.injEq] at h
    rcases hp : parseJson s with perr | v
    · rw [hp] at h
      simp [Except.bind] at h
    · rw [hp] at h
      rcases hv : Event.decode_value v with err | oe
      · rw [show Except.bind (Except.ok v) Event.decode_value = Event.decode_value v from rfl,
          hv] at h
        simp at h
      · rcases oe with _ | e
        · rw [show Except.bind (Except.ok v) Event.decode_value = Event.decode_value v from rfl,
            hv] at h
          simp at h
        · rw [show Except.bind (Except.ok v) Event.decode_value = Event.decode_value v from rfl,
            hv] at h
          simp at h
          subst h
          exact decode_value_ne_message v m hv
  | ping d =>
    intro h
    simp [Event.decode_message] at h
  | binary d => cases hf
  | pong d => cases hf
  | close => cases hf

/-- C1 counterexample: a client constructed without credentials panics —
`self.auth.as_ref().unwrap()` — when the signing path is invoked; it does not
return a distinguishable error. -/
theorem compute_signature_none_panics :
    Client.compute_signature ⟨none⟩ "symbol=BTCUSDT" = .panic ∧
    Client.sign_form ⟨none⟩ (some "symbol=BTCUSDT") 1600000000000 = .panic :=
  ⟨rfl, rfl⟩

/-- C1 (amended): invoking the signing path on a client constructed without
credentials panics (`unwrap` of `None`) rather than returning an error; with
credentials present signing never fails — the `new_varkey` error path is dead,
since HMAC accepts keys of any length. -/
theorem signing_panics_iff_unauthenticated (a : Authentication) (body : String)
    (form : Option String) (timestamp : Nat) :
    Client.compute_signature ⟨none⟩ body = .panic ∧
    Client.sign_form ⟨none⟩ form timestamp = .panic ∧
    Client.compute_signature ⟨some a⟩ body =
      .value (.ok (hmacSha256Hex a.api_secret body)) :=
  ⟨rfl, rfl, rfl⟩

/-- C4: with credentials present, `sign_form` appends `&recvWindow=1000` and
`&timestamp={t}` to the form (in that order), computes the HMAC-SHA256 of
exactly that resulting string under the secret (lowercase hex), and returns
the same string with `&signature={sig}` as the trailing field. -/
theorem sign_form_exact_string (a : Authentication) (form : Option String)
    (timestamp : Nat) :
    Client.sign_form ⟨some a⟩ form timestamp =
      .value (.ok ((form.getD "" ++ "&recvWindow=1000&timestamp=" ++ toString timestamp) ++
        "&signature=" ++
        hmacSha256Hex a.api_secret
          (form.getD "" ++ "&recvWindow=1000&timestamp=" ++ toString timestamp))) :=
  rfl

/-- C3: reading a ping frame enqueues a pong with the identical payload
before the frame is decoded and before the next frame is read, and the loop
then continues with the remaining frames; erasing pong-send outcomes, the
trace does not depend on whether pong sends succeed (a failed pong is
non-fatal). -/
theorem ping_pong_before_next_read {ε : Type} (decode : Frame → ε)
    (sendOk sendOk2 : List Nat → Bool) (p : List Nat) (rest fs : List Frame) :
    wsRun decode sendOk (.ping p :: rest) =
      .readFrame (.ping p) :: .sendPong p (sendOk p) :: .deliver (decode (.ping p)) ::
        wsRun decode sendOk rest ∧
    (wsRun decode sendOk fs).map stripSendResult =
      (wsRun decode sendOk2 fs).map stripSendResult := by
  refine ⟨rfl, ?_⟩
  induction fs with
  | nil => rfl
  | cons f rest2 ih => cases f <;> simp [wsRun, stripSendResult, ih]

/-- C6: every text frame produces exactly one decoded event — the decoder is
a total function returning `some` event; a text frame that is not valid JSON
yields `ParseError` carrying the parse error description and the offending
original text; and the receive loop delivers the event and continues with the
subsequent frames rather than failing the connection. -/
theorem text_frame_exactly_one_event (s : String) (rest : List Frame)
    (sendOk : List Nat → Bool) :
    (Event.decode_message (.text s)).isSome = true ∧
    (∀ err, parseJson s = .error err →
      Event.decode_message (.text s) = some (.parseError err s)) ∧
    wsRun Event.decode_message sendOk (.text s :: rest) =
      .readFrame (.text s) :: .deliver (Event.decode_message (.text s)) ::
        wsRun Event.decode_message sendOk rest := by
  refine ⟨rfl, ?_, rfl⟩
  intro err h
  simp only [Event.decode_message, h]
  rfl

/-- C6 witness: a concrete non-JSON text frame decodes to the parse-error
event carrying the offending text, within a running loop. -/
theorem text_frame_exactly_one_event_witness :
    Event.decode_message (.text "\x7b") =
      some (.parseError "EOF while parsing an object" "\x7b") :=
  (text_frame_exactly_one_event "\x7b" [] fun _ => true).2.1
    "EOF while parsing an object" rfl

/-- C8: the receive loop hands only text and ping frames to the decoder —
any other frame is read and discarded without surfacing an event — and on
text and ping frames `decode_message` always returns an event, so its
catch-all (`unreachable!`) branch for other frame kinds is never taken under
that precondition. -/
theorem loop_forwards_only_text_and_ping (f : Frame) (rest : List Frame)
    (sendOk : List Nat → Bool) :
    (f.isTextOrPing = true → (Event.decode_message f).isSome = true) ∧
    (f.isTextOrPing = false →
      wsRun Event.decode_message sendOk (f :: rest) =
        .readFrame f :: wsRun Event.decode_message sendOk rest) := by
  cases f <;> simp [Frame.isTextOrPing, Event.decode_message, wsRun]

/-- C8 witness: a concrete text frame is decoded, and a concrete binary frame
is read and discarded with no event delivered. -/
theorem loop_forwards_only_text_and_ping_witness :
    (Event.decode_message (.text "hello")).isSome = true ∧
    wsRun Event.decode_message (fun _ => true) [.binary [0, 1]] =
      [.readFrame (.binary [0, 1])] :=
  ⟨(loop_forwards_only_text_and_ping (.text "hello") [] fun _ => true).1 rfl,
    (loop_forwards_only_text_and_ping (.binary [0, 1]) [] fun _ => true).2 rfl⟩

/-- C10: the futures decoder never produces the raw undecoded `Message`
variant: on every frame the loop forwards (text or ping) `decode_message`
returns one of the classified, `ParseError`, `Unknown` or `Ping` variants,
and no run of the receive loop ever delivers a `Message` event. -/
theorem futures_never_raw_message (f : Frame) (fs : List Frame)
    (sendOk : List Nat → Bool) (m : Frame) :
    (f.isTextOrPing = true → Event.decode_message f ≠ some (.message m)) ∧
    WsAction.deliver (some (Event.message m)) ∉ wsRun Event.decode_message sendOk fs := by
  refine ⟨decode_message_ne_message f m, ?_⟩
  induction fs with
  | nil => simp [wsRun]
  | cons g rest ih =>
    cases g with
    | text s =>
      simp [wsRun, ih]
      exact fun hEq => decode_message_ne_message (.text s) m rfl hEq.symm
    | ping p => simp [wsRun, Event.decode_message, ih]
    | binary b => simp [wsRun, ih]
    | pong p => simp [wsRun, ih]
    | close => simp [wsRun, ih]

/-- C10 witness: a concrete forwarded text frame does not decode to the raw
`Message` variant. -/
theorem futures_never_raw_message_witness :
    Event.decode_message (.text "hi") ≠ some (.message .close) :=
  (futures_never_raw_message (.text "hi") [] (fun _ => true) .close).1 rfl

/-- C2 counterexample: the code treats only status 200 as success.  At status
201 — an HTTP success status — with a body that deserializes fine, the decoder
does not return the typed value: it returns a classified `ApiError`
synthesized from the status code and the raw body. -/
theorem decode_response_201_counterexample :
    parseJson "\x7b\x7d" = .ok (.obj []) ∧
    decode_response parseJson 201 "\x7b\x7d" =
      .error (.apiError ⟨201, "\x7b\x7d", []⟩) ∧
    isApiError (decode_response parseJson 201 "\x7b\x7d") = true :=
  ⟨rfl, rfl, rfl⟩

/-- C2 (amended): with "success status" meaning exactly HTTP 200 (the only
status the match treats as success): on 200 the body is deserialized as `T`,
a failure becoming a `Decode` error carrying both the parse error and the
unchanged body text; on any other status a body that parses as the API-error
shape becomes that `ApiError`, and otherwise an `ApiError` is synthesized
with the status as its code and the raw body as its message — so a non-200
response always yields a classified `ApiError`, never an unclassified
failure. -/
theorem decode_response_cases {τ : Type} (parseT : String → Except String τ)
    (status : Nat) (body : String) :
    (status = 200 →
      (∀ t, parseT body = .ok t → decode_response parseT status body = .ok t) ∧
      (∀ e, parseT body = .error e →
        decode_response parseT status body = .error (.decode e body))) ∧
    (status ≠ 200 →
      (∀ ae, apiErrorFromStr body = .ok ae →
        decode_response parseT status body = .error (.apiError ae)) ∧
      (∀ e, apiErrorFromStr body = .error e →
        decode_response parseT status body =
          .error (.apiError ⟨Int.ofNat status, body, []⟩)) ∧
      isApiError (decode_response parseT status body) = true) := by
  constructor
  · intro h200
    subst h200
    constructor
    · intro t ht
      simp [decode_response, ht]
    · intro e he
      simp [decode_response, he]
  · intro hne
    refine ⟨?_, ?_, ?_⟩
    · intro ae hae
      simp [decode_response, hne, hae]
    · intro e he
      simp [decode_response, hne, he]
    · rcases h : apiErrorFromStr body with e | ae <;>
        simp [decode_response, hne, h, isApiError]

/-- C2 witness: a concrete 404 with an empty (unparseable) body yields the
synthesized `ApiError` with code 404 and the raw body as message. -/
theorem decode_response_cases_witness :
    decode_response parseJson 404 "" =
      .error (.apiError ⟨Int.ofNat 404, "", []⟩) :=
  ((decode_response_cases parseJson 404 "").2 (by decide)).2.1
    "EOF while parsing a value" rfl

/-- C5 counterexample: an inner object that carries a string `e` but itself
has the combined-envelope shape (a string `stream` field and a `data` object
with a string `e`) decodes differently bare than wrapped: wrapped, its own
`e` (`"zzz"`, unknown) is classified, yielding no event; bare, the envelope
branch fires first and classifies its nested `data` (`"kline"`, which fails
typed deserialization). -/
theorem envelope_roundtrip_counterexample :
    (JValue.obj [("e", .str "zzz"), ("stream", .str "y"),
      ("data", .obj [("e", .str "kline")])]).index "e" = .str "zzz" ∧
    Event.decode_value (.obj [("stream", .str "s"),
      ("data", .obj [("e", .str "zzz"), ("stream", .str "y"),
        ("data", .obj [("e", .str "kline")])])]) = .ok none ∧
    Event.decode_value (.obj [("e", .str "zzz"), ("stream", .str "y"),
      ("data", .obj [("e", .str "kline")])]) = .error "missing field E" ∧
    Event.decode_value (.obj [("stream", .str "s"),
      ("data", .obj [("e", .str "zzz"), ("stream", .str "y"),
        ("data", .obj [("e", .str "kline")])])]) ≠
      Event.decode_value (.obj [("e", .str "zzz"), ("stream", .str "y"),
        ("data", .obj [("e", .str "kline")])]) := by
  have h1 : Event.decode_value (.obj [("stream", .str "s"),
      ("data", .obj [("e", .str "zzz"), ("stream", .str "y"),
        ("data", .obj [("e", .str "kline")])])]) = .ok none := rfl
  have h2 : Event.decode_value (.obj [("e", .str "zzz"), ("stream", .str "y"),
      ("data", .obj [("e", .str "kline")])]) = .error "missing field E" := rfl
  refine ⟨rfl, h1, h2, ?_⟩
  rw [h1, h2]
  simp

/-- C5 (amended): for every inner object `D` carrying a string `e` that does
not itself have the combined-envelope shape, decoding the combined-stream
envelope `{"stream": s, "data": D}` produces the same result as decoding the
bare object `D` directly, for any stream name `s`. -/
theorem envelope_unwrap_same_event (s : String) (D : JValue)
    (h₁ : (D.index "e").isString = true)
    (h₂ : ¬((D.index "stream").isString = true ∧
      ((D.index "data").index "e").isString = true)) :
    Event.decode_value (.obj [("stream", .str s), ("data", D)]) =
      Event.decode_value D := by
  have e1 : (JValue.obj [("stream", .str s), ("data", D)]).index "stream" = .str s := rfl
  have e2 : (JValue.obj [("stream", .str s), ("data", D)]).index "data" = D := rfl
  have hstr : (JValue.str s).isString = true := rfl
  by_cases h1s : (D.index "stream").isString = true
  · by_cases hd : ((D.index "data").index "e").isString = true
    · exact absurd ⟨h1s, hd⟩ h₂
    · simp [Event.decode_value, e1, e2, hstr, h₁, h1s, hd]
  · simp [Event.decode_value, e1, e2, hstr, h₁, h1s]

/-- C5 witness: a concrete bare event object with no envelope shape of its
own decodes identically bare and wrapped in an envelope. -/
theorem envelope_unwrap_same_event_witness :
    Event.decode_value (.obj [("stream", .str "x"),
      ("data", .obj [("e", .str "somethingNew")])]) =
      Event.decode_value (.obj [("e", .str "somethingNew")]) :=
  envelope_unwrap_same_event "x" (.obj [("e", .str "somethingNew")]) rfl
    (by simp [JValue.index, JValue.isString, lookupField])

/-- C7 counterexample: a text frame whose top-level discriminator `"e"` is the
unknown string `"zzz"` but which also has the combined-envelope shape is not
returned as `Unknown`: the envelope branch fires first and classifies the
nested `data` object (discriminator `"kline"`), whose typed deserialization
fails, so the decoder returns `ParseError`. -/
theorem unknown_discriminator_counterexample :
    parseJson "\x7b\"e\":\"zzz\",\"stream\":\"y\",\"data\":\x7b\"e\":\"kline\"\x7d\x7d" =
      .ok (.obj [("e", .str "zzz"), ("stream", .str "y"),
        ("data", .obj [("e", .str "kline")])]) ∧
    (JValue.obj [("e", .str "zzz"), ("stream", .str "y"),
      ("data", .obj [("e", .str "kline")])]).index "e" = .str "zzz" ∧
    "zzz" ∉ knownFuturesDiscriminators ∧
    Event.decode_message
        (.text "\x7b\"e\":\"zzz\",\"stream\":\"y\",\"data\":\x7b\"e\":\"kline\"\x7d\x7d") =
      some (.parseError "missing field E"
        "\x7b\"e\":\"zzz\",\"stream\":\"y\",\"data\":\x7b\"e\":\"kline\"\x7d\x7d") :=
  ⟨rfl, rfl, by decide, rfl⟩

/-- `Event::decode_data` on an object whose discriminator is a string outside
the known set classifies nothing. -/
theorem decode_data_unknown_discriminator (w : JValue) (d : String)
    (h₃ : w.index "e" = .str d) (h₄ : d ∉ knownFuturesDiscriminators) :
    Event.decode_data w = .ok none := by
  simp only [knownFuturesDiscriminators, List.mem_cons, List.mem_singleton, not_or] at h₄
  obtain ⟨n1, n2, n3, n4, n5, n6⟩ := h₄
  simp only [Event.decode_data, h₃, JValue.asStr]
  simp [n1, n2, n3, n4, n5, n6]

/-- C7 (amended): whenever the object the decoder actually classifies (the
envelope's `data` when the combined-envelope branch fires, the value itself
otherwise) carries a string discriminator `"e"` outside the known set, the
futures decoder returns the `Unknown` event carrying the original message
text — not an error and not a dropped message. -/
theorem unknown_discriminator_yields_unknown (s : String) (v w : JValue) (d : String)
    (h₁ : parseJson s = .ok v) (h₂ : classificationTarget v = some w)
    (h₃ : w.index "e" = .str d) (h₄ : d ∉ knownFuturesDiscriminators) :
    Event.decode_message (.text s) = some (.unknown s) := by
  have hval : Event.decode_value v = .ok none := by
    unfold classificationTarget at h₂
    unfold Event.decode_value
    by_cases hc : ((v.index "stream").isString && ((v.index "data").index "e").isString) = true
    · rw [if_pos hc] at h₂ ⊢
      simp only [Option.some.injEq] at h₂
      rw [h₂]
      exact decode_data_unknown_discriminator w d h₃ h₄
    · rw [if_neg hc] at h₂ ⊢
      by_cases he : (v.index "e").isString = true
      · rw [if_pos he] at h₂ ⊢
        simp only [Option.some.injEq] at h₂
        rw [h₂]
        exact decode_data_unknown_discriminator w d h₃ h₄
      · rw [if_neg he] at h₂
        cases h₂
  simp only [Event.decode_message, h₁]
  rw [show Except.bind (Except.ok v) Event.decode_value = Event.decode_value v from rfl, hval]

/-- C7 witness: a concrete bare object with the unrecognized discriminator
`"somethingNew"` decodes to the `Unknown` event carrying the original text. -/
theorem unknown_discriminator_yields_unknown_witness :
    Event.decode_message (.text "\x7b\"e\":\"somethingNew\"\x7d") =
      some (.unknown "\x7b\"e\":\"somethingNew\"\x7d") :=
  unknown_discriminator_yields_unknown "\x7b\"e\":\"somethingNew\"\x7d"
    (.obj [("e", .str "somethingNew")]) (.obj [("e", .str "somethingNew")])
    "somethingNew" rfl rfl rfl (by decide)

/-- C9: the spot decoder classifies only the discriminators
`executionReport` and `outboundAccountPosition`; every other forwarded frame
— a ping frame, invalid JSON, JSON without a string `e`, an unrecognized
discriminator, or a recognized discriminator whose typed deserialization
fails — is returned as the single raw `Message` escape hatch wrapping the
original frame (`SpotEvent` has no parse-error, unknown or ping variants, and
market discriminators such as `kline` or `aggTrade` fall under the
unrecognized case). -/
theorem spot_decoder_classification (s : String) (p : List Nat) (v : JValue)
    (d err : String) (r : ExecutionReport) (u : SpotAccountUpdate) :
    Decoder.decode_event (.ping p) = .message (.ping p) ∧
    (parseJson s = .error err → Decoder.decode_event (.text s) = .message (.text s)) ∧
    (parseJson s = .ok v → (v.index "e").isString = false →
      Decoder.decode_event (.text s) = .message (.text s)) ∧
    (parseJson s = .ok v → v.index "e" = .str d → d ≠ "executionReport" →
      d ≠ "outboundAccountPosition" →
      Decoder.decode_event (.text s) = .message (.text s)) ∧
    (parseJson s = .ok v → v.index "e" = .str "executionReport" →
      executionReportFromValue v = .error err →
      Decoder.decode_event (.text s) = .message (.text s)) ∧
    (parseJson s = .ok v → v.index "e" = .str "outboundAccountPosition" →
      spotAccountUpdateFromValue v = .error err →
      Decoder.decode_event (.text s) = .message (.text s)) ∧
    (parseJson s = .ok v → v.index "e" = .str "executionReport" →
      executionReportFromValue v = .ok r →
      Decoder.decode_event (.text s) = .executionReport r) ∧
    (parseJson s = .ok v → v.index "e" = .str "outboundAccountPosition" →
      spotAccountUpdateFromValue v = .ok u →
      Decoder.decode_event (.text s) = .accountUpdate u) := by
  refine ⟨rfl, ?_, ?_, ?_, ?_, ?_, ?_, ?_⟩
  · intro h
    simp [Decoder.decode_event, h]
  · intro hp he
    simp [Decoder.decode_event, hp, he]
  · intro hp he hd1 hd2
    simp [Decoder.decode_event, Decoder.decode_value, hp, he, JValue.isString,
      JValue.asStr, hd1, hd2]
  · intro hp he hr
    simp [Decoder.decode_event, Decoder.decode_value, hp, he, JValue.isString,
      JValue.asStr, hr, Except.map]
  · intro hp he hu
    simp [Decoder.decode_event, Decoder.decode_value, hp, he, JValue.isString,
      JValue.asStr, hu, Except.map]
  · intro hp he hr
    simp [Decoder.decode_event, Decoder.decode_value, hp, he, JValue.isString,
      JValue.asStr, hr, Except.map]
  · intro hp he hu
    simp [Decoder.decode_event, Decoder.decode_value, hp, he, JValue.isString,
      JValue.asStr, hu, Except.map]

/-- C9 witness: a concrete frame with the recognized discriminator
`executionReport` whose typed deserialization fails (all other fields are
missing) comes back as the raw `Message` wrapping the original frame. -/
theorem spot_decoder_classification_witness :
    Decoder.decode_event (.text "\x7b\"e\":\"executionReport\"\x7d") =
      .message (.text "\x7b\"e\":\"executionReport\"\x7d") :=
  (spot_decoder_classification "\x7b\"e\":\"executionReport\"\x7d" []
    (.obj [("e", .str "executionReport")]) "x" "missing field E"
    ⟨"", 0, "", "", "", "", "", "", "", "", "", "", "", "", "", 0, "", "", "",
      "", none, 0, 0, 0, false, false, false, 0, "", "", "", []⟩
    ⟨"", 0, 0, []⟩).2.2.2.2.1 rfl rfl rfl
